import Mathlib

/-
Shallow embedding of src/src/midi_alsa.c (the ALSA MIDI output layer of
PCem): device discovery over the two ALSA backends (rawmidi and
sequencer), the merged device registry, the sequencer connection state
machine, and the public midi_init / midi_close / midi_write /
midi_get_num_devs surface.

The ALSA library itself is external to the repository.  Its observable
behaviour is captured by a `Host` record of oracle answers (which cards,
devices and ports exist, which calls fail) and by lists of `SeqAction` /
`MidiAction` values recording the ALSA calls the code issues.  The
global mutable state of midi_alsa.c (initialized, midi_output_count,
midi_outputs, current_output, sequencer_env, rawmidi_env) is an explicit
`MidiState` record that every operation threads through.
-/

namespace MidiAlsa

/-- MAX_MIDI_DEVICES from midi_alsa.c. -/
def MAX_MIDI_DEVICES : Nat := 128

/-- MAX_RAWMIDI_SUBDEVICES from midi_alsa.c. -/
def MAX_RAWMIDI_SUBDEVICES : Nat := 32

/-- MAX_CTL_NAME_LEN from midi_alsa.c. -/
def MAX_CTL_NAME_LEN : Nat := 32

/-- MAX_DEVICE_NAME_LEN from midi_alsa.c. -/
def MAX_DEVICE_NAME_LEN : Nat := 50

/-- ALSA constant SND_SEQ_ADDRESS_SUBSCRIBERS (broadcast destination). -/
def SND_SEQ_ADDRESS_SUBSCRIBERS : Int := 254

/-- ALSA constant SND_SEQ_ADDRESS_UNKNOWN. -/
def SND_SEQ_ADDRESS_UNKNOWN : Int := 253

/-- ALSA constant SND_SEQ_PORT_TYPE_MIDI_GENERIC (bit 1). -/
def SND_SEQ_PORT_TYPE_MIDI_GENERIC : Nat := 2

/-- ALSA constant SND_SEQ_PORT_CAP_WRITE (bit 1). -/
def SND_SEQ_PORT_CAP_WRITE : Nat := 2

/-- ALSA constant SND_SEQ_PORT_CAP_SUBS_WRITE (bit 6). -/
def SND_SEQ_PORT_CAP_SUBS_WRITE : Nat := 64

/-- ALSA event type SND_SEQ_EVENT_NOTEON. -/
def SND_SEQ_EVENT_NOTEON : Int := 6

/-- ALSA event type SND_SEQ_EVENT_PGMCHANGE. -/
def SND_SEQ_EVENT_PGMCHANGE : Int := 11

/-- ALSA event type SND_SEQ_EVENT_CHANPRESS. -/
def SND_SEQ_EVENT_CHANPRESS : Int := 12

/-- snd_seq_addr_t: client and port are unsigned char in ALSA, so every
assignment from an int truncates mod 256; the truncation is written
explicitly at each store below.  Values are kept as Int. -/
structure snd_seq_addr_t where
  client : Int
  port : Int
deriving DecidableEq, Repr

/-- rawmidi_output_addr_t from midi_alsa.c: (card, device, sub) triple. -/
structure rawmidi_output_addr_t where
  card : Int
  device : Int
  sub : Int
deriving DecidableEq, Repr

/-- The union payload of midi_output_t, made a sum: a device is either a
rawmidi device or a sequencer device. -/
inductive midi_output_kind where
  | rawmidi (address : rawmidi_output_addr_t)
  | seqdev (address : snd_seq_addr_t)
deriving DecidableEq, Repr

/-- midi_output_t from midi_alsa.c: the stored name plus the address
payload.  The open/close/write function pointers are recovered by
dispatching on the kind. -/
structure midi_output_t where
  name : String
  kind : midi_output_kind
deriving DecidableEq, Repr

/-- True for a rawmidi-backed device. -/
def midi_output_t.isRawKind (d : midi_output_t) : Bool :=
  match d.kind with
  | .rawmidi _ => true
  | .seqdev _ => false

/-- True for a sequencer-backed device. -/
def midi_output_t.isSeqKind (d : midi_output_t) : Bool :=
  match d.kind with
  | .rawmidi _ => false
  | .seqdev _ => true

/-- sequencer_env_t from midi_alsa.c.  The opaque snd_seq_t and
snd_midi_event_t handles only matter through their presence, so they are
Option Unit. -/
structure sequencer_env_t where
  seq : Option Unit
  midi_codec : Option Unit
  src : snd_seq_addr_t
  dest : snd_seq_addr_t
deriving DecidableEq, Repr

/-- One ALSA sequencer port as the host enumeration reports it:
snd_seq_port_info with its client id, port id, type and capability
bitmasks, and the client name. -/
structure SeqPortInfo where
  client : Int
  port : Int
  port_type : Nat
  caps : Nat
  client_name : String
deriving DecidableEq, Repr

/-- One rawmidi device unit as reported by snd_ctl_rawmidi_next_device:
its device number, the card id returned by snd_rawmidi_info_get_card,
and one Bool per sub-device telling whether the snd_ctl_rawmidi_info
probe of that sub-device succeeds (its length is the reported
sub-device count). -/
structure RawDeviceInfo where
  device : Int
  info_card : Int
  sub_ok : List Bool
deriving DecidableEq, Repr

/-- One host sound card as seen by midi_query_rawmidi: its number, the
result of snd_card_get_name (none on failure), whether snd_ctl_open
succeeds, and its rawmidi device units in enumeration order. -/
structure RawCardInfo where
  card : Int
  shortname : Option String
  ctl_ok : Bool
  devices : List RawDeviceInfo
deriving DecidableEq, Repr

/-- Oracle answers of the external ALSA library for one run.  Fields
describe the host topology and which ALSA calls fail.  `encode` stands
for the external snd_midi_event_encode_byte codec: for a byte it yields
the int result (1 when a message completed) and the completed event
type. -/
structure Host where
  raw_first_next_fails : Bool
  raw_cards : List RawCardInfo
  seq_open_fails : Bool
  seq_ports : List SeqPortInfo
  create_port_result : Int
  codec_new_fails : Bool
  connect_result : Int
  raw_open_fails : Bool
  encode : Nat → Int × Int

/-- snprintf into a MAX_DEVICE_NAME_LEN buffer keeps at most 49
characters. -/
def truncate_name (s : String) : String :=
  String.mk (s.data.take (MAX_DEVICE_NAME_LEN - 1))

/-- Name stored for a rawmidi device: rawmidi(card:device:sub) and the
card short name, truncated. -/
def rawmidi_name (a : rawmidi_output_addr_t) (shortname : String) : String :=
  truncate_name ("rawmidi(" ++ toString a.card ++ ":" ++ toString a.device ++ ":"
    ++ toString a.sub ++ "): " ++ shortname)

/-- Name stored for a sequencer device: alsa_seq(client:port) and the
client name, truncated. -/
def seq_device_name (client port : Int) (client_name : String) : String :=
  truncate_name ("alsa_seq(" ++ toString client ++ ":" ++ toString port ++ "): "
    ++ client_name)

/-- rawmidi_get_subdevices from midi_alsa.c: walk sub-devices 0..sub_nr-1
in order, keep those whose probe succeeds, stop once maxlen entries are
collected.  The card field comes from snd_rawmidi_info_get_card. -/
def rawmidi_get_subdevices (d : RawDeviceInfo) (maxlen : Nat) :
    List rawmidi_output_addr_t :=
  ((((List.range d.sub_ok.length).filter (fun i => d.sub_ok.getD i false)).map
    (fun i => ⟨d.info_card, d.device, (i : Int)⟩)).take maxlen)

/-- Length of the snprintf result hw:card (the ctl name built in
midi_query_rawmidi). -/
def raw_ctl_name_len (card : Int) : Nat :=
  ("hw:" ++ toString card).length

/-- The devices one card contributes in midi_query_rawmidi: nothing when
the name lookup fails, the ctl name would truncate, or the ctl fails to
open; otherwise all output sub-devices of all its device units, each
unit capped at MAX_RAWMIDI_SUBDEVICES by the local buffer. -/
def raw_card_entries (c : RawCardInfo) : List midi_output_t :=
  match c.shortname with
  | none => []
  | some nm =>
    if raw_ctl_name_len c.card < MAX_CTL_NAME_LEN ∧ c.ctl_ok = true then
      (c.devices.flatMap (fun d => rawmidi_get_subdevices d MAX_RAWMIDI_SUBDEVICES)).map
        (fun a => { name := rawmidi_name a nm, kind := .rawmidi a })
    else []

/-- midi_query_rawmidi from midi_alsa.c: none models the -1 return when
the first snd_card_next fails; otherwise the cards are walked in host
order (an empty card list is the no-cards early return 0) and the global
count stops the copy loops at maxlen entries. -/
def midi_query_rawmidi (h : Host) (maxlen : Nat) : Option (List midi_output_t) :=
  if h.raw_first_next_fails then none
  else some ((h.raw_cards.flatMap raw_card_entries).take maxlen)

/-- Capability mask used by midi_query_alsa_seq: CAP_WRITE together with
CAP_SUBS_WRITE. -/
def seq_caps_mask : Nat := SND_SEQ_PORT_CAP_WRITE ||| SND_SEQ_PORT_CAP_SUBS_WRITE

/-- Port filter of midi_query_alsa_seq: the type must include generic
MIDI and the capabilities must include the whole write mask. -/
def seq_port_matches (p : SeqPortInfo) : Bool :=
  (p.port_type &&& SND_SEQ_PORT_TYPE_MIDI_GENERIC != 0) &&
  (p.caps &&& seq_caps_mask == seq_caps_mask)

/-- The midi_output_t stored for one matching sequencer port.  The
address fields are unsigned char in snd_seq_addr_t, hence the mod 256;
the name uses the untruncated ints. -/
def seq_entry (p : SeqPortInfo) : midi_output_t :=
  { name := seq_device_name p.client p.port p.client_name,
    kind := .seqdev { client := p.client % 256, port := p.port % 256 } }

/-- midi_query_alsa_seq from midi_alsa.c: none models the -1 return when
open_seq fails; otherwise ports are walked client by client in host
order, filtered, and the count stops both loops at maxlen entries. -/
def midi_query_alsa_seq (h : Host) (maxlen : Nat) : Option (List midi_output_t) :=
  if h.seq_open_fails then none
  else some (((h.seq_ports.filter seq_port_matches).map seq_entry).take maxlen)

/-- The global mutable state of midi_alsa.c.  midi_outputs together with
midi_output_count is the written prefix of the static array, kept as a
list; current_output is the index the pointer refers to. -/
structure MidiState where
  initialized : Bool
  midi_outputs : List midi_output_t
  current_output : Option Nat
  sequencer_env : sequencer_env_t
  rawmidi_open : Bool
deriving DecidableEq, Repr

/-- midi_query from midi_alsa.c: cached after the first success; the
rawmidi result is kept only when positive (an error counts as zero
devices), the sequencer result is appended after the rawmidi entries,
and a sequencer hard failure returns false without setting
initialized. -/
def midi_query (h : Host) (s : MidiState) : Bool × MidiState :=
  if s.initialized then (true, s)
  else
    let raw_list := (midi_query_rawmidi h MAX_MIDI_DEVICES).getD []
    match midi_query_alsa_seq h MAX_MIDI_DEVICES with
    | none => (false, { s with midi_outputs := raw_list })
    | some seq_list => (true, { s with midi_outputs := raw_list ++ seq_list,
                                       initialized := true })

/-- midi_get_num_devs from midi_alsa.c: 0 when discovery fails,
otherwise the stored count. -/
def midi_get_num_devs (h : Host) (s : MidiState) : Int × MidiState :=
  let r := midi_query h s
  if r.1 then ((r.2.midi_outputs.length : Int), r.2) else (0, r.2)

/-- ALSA sequencer calls the code issues, recorded in order.  allocClient
is a successful snd_seq_open, allocPort a successful
snd_seq_create_simple_port, allocCodec a successful snd_midi_event_new,
freeClient is snd_seq_close, freeCodec snd_midi_event_free, drainOutput
snd_seq_drain_output, connectTo snd_seq_connect_to, and sendEvent a
snd_seq_event_output of an event marked direct, sourced from the given
port, addressed to subscribers. -/
inductive SeqAction where
  | allocClient
  | freeClient
  | allocPort (port : Int)
  | connectTo (client port : Int)
  | allocCodec
  | freeCodec
  | drainOutput
  | sendEvent (direct : Bool) (src_port : Int) (to_subs : Bool) (ev_type : Int)
deriving DecidableEq, Repr

/-- midi_open_alsa_seq from midi_alsa.c, acting on the sequencer
environment, with the opened device address as argument.  Returns the
new environment and the ALSA calls issued.  Notes kept from the C: the
short circuit returns untouched when a client handle already exists or
when snd_seq_open fails; the create_simple_port result is stored into
the unsigned char src.port (hence mod 256, which also makes the
negative-status check dead, exactly as in the C); src.client is never
assigned anywhere in the file; the destination is rewritten to the
broadcast address when the stored client is 0 or the destination equals
src; connect is attempted only for a non-broadcast destination and its
failure is ignored; codec allocation failure closes the client
again. -/
def midi_open_alsa_seq (h : Host) (address : snd_seq_addr_t)
    (env : sequencer_env_t) : sequencer_env_t × List SeqAction :=
  if env.seq.isSome then (env, [])
  else if h.seq_open_fails then (env, [])
  else
    let env1 : sequencer_env_t := { env with seq := some () }
    let new_port : Int := h.create_port_result % 256
    let env2 : sequencer_env_t := { env1 with src := { env1.src with port := new_port } }
    if env2.src.port < 0 then
      ({ env2 with seq := none }, [.allocClient, .freeClient])
    else
      let dst_is_src := address.client = env2.src.client ∧ address.port = env2.src.port
      let dest : snd_seq_addr_t :=
        if address.client = 0 ∨ dst_is_src then
          { client := SND_SEQ_ADDRESS_SUBSCRIBERS, port := SND_SEQ_ADDRESS_UNKNOWN }
        else address
      let env3 : sequencer_env_t := { env2 with dest := dest }
      let connect_acts : List SeqAction :=
        if dest.client ≠ SND_SEQ_ADDRESS_SUBSCRIBERS then
          [.connectTo dest.client dest.port]
        else []
      if h.codec_new_fails then
        ({ env3 with seq := none },
          [.allocClient, .allocPort new_port] ++ connect_acts ++ [.freeClient])
      else
        ({ env3 with midi_codec := some () },
          [.allocClient, .allocPort new_port] ++ connect_acts ++ [.allocCodec])

/-- midi_close_alsa_seq from midi_alsa.c: nothing when no client handle
exists; otherwise drain, close the client, and free the codec when one
exists. -/
def midi_close_alsa_seq (env : sequencer_env_t) : sequencer_env_t × List SeqAction :=
  if env.seq.isSome then
    if env.midi_codec.isSome then
      ({ env with seq := none, midi_codec := none },
        [.drainOutput, .freeClient, .freeCodec])
    else
      ({ env with seq := none }, [.drainOutput, .freeClient])
  else (env, [])

/-- midi_write_alsa_seq from midi_alsa.c for one byte.  encode_result
and ev_type are the outcome of the external snd_midi_event_encode_byte
call for this byte (1 means a complete event was assembled).  Nothing
happens when the sequencer is not open; when an event completes it is
sent direct, from the own source port, to subscribers, and the output
is drained unless the event type is program change or channel
pressure. -/
def midi_write_alsa_seq (encode_result : Int) (ev_type : Int)
    (env : sequencer_env_t) : List SeqAction :=
  if env.seq.isNone then []
  else if encode_result = 1 then
    let flush : Bool :=
      if ev_type = SND_SEQ_EVENT_PGMCHANGE ∨ ev_type = SND_SEQ_EVENT_CHANPRESS then
        false
      else true
    [SeqAction.sendEvent true env.src.port true ev_type] ++
      (if flush then [SeqAction.drainOutput] else [])
  else []

/-- Length of the snprintf result hw:card,device,sub built in
midi_open_rawmidi. -/
def rawmidi_ctl_name_len (a : rawmidi_output_addr_t) : Nat :=
  ("hw:" ++ toString a.card ++ "," ++ toString a.device ++ "," ++ toString a.sub).length

/-- midi_open_rawmidi from midi_alsa.c, acting on the presence flag of
the rawmidi handle: the open is skipped when the ctl name would
truncate or snd_rawmidi_open fails. -/
def midi_open_rawmidi (h : Host) (a : rawmidi_output_addr_t) (is_open : Bool) : Bool :=
  if MAX_CTL_NAME_LEN ≤ rawmidi_ctl_name_len a then is_open
  else if h.raw_open_fails then is_open
  else true

/-- Externally visible calls of the public layer: a sequencer action, a
raw byte written to the rawmidi handle, a rawmidi drain, or a rawmidi
close. -/
inductive MidiAction where
  | seqAct (a : SeqAction)
  | rawWrite (val : Nat)
  | rawDrain
  | rawClose
deriving DecidableEq, Repr

/-- Dispatch of the open function pointer of a device, as midi_init
performs it on the global state. -/
def open_device (h : Host) (d : midi_output_t) (s : MidiState) : MidiState :=
  match d.kind with
  | .rawmidi a => { s with rawmidi_open := midi_open_rawmidi h a s.rawmidi_open }
  | .seqdev a => { s with sequencer_env := (midi_open_alsa_seq h a s.sequencer_env).1 }

/-- Dispatch of the close function pointer of a device
(midi_close_rawmidi drains and closes when the handle exists). -/
def close_device (d : midi_output_t) (s : MidiState) : MidiState × List MidiAction :=
  match d.kind with
  | .rawmidi _ =>
    if s.rawmidi_open then
      ({ s with rawmidi_open := false }, [.rawDrain, .rawClose])
    else (s, [])
  | .seqdev _ =>
    let r := midi_close_alsa_seq s.sequencer_env
    ({ s with sequencer_env := r.1 }, r.2.map .seqAct)

/-- Dispatch of the write function pointer of a device for one byte
(midi_write_rawmidi writes the byte when the handle exists; the
sequencer path feeds the byte to the codec oracle). -/
def write_device (h : Host) (d : midi_output_t) (val : Nat) (s : MidiState) :
    List MidiAction :=
  match d.kind with
  | .rawmidi _ => if s.rawmidi_open then [.rawWrite val] else []
  | .seqdev _ =>
    let r := h.encode val
    (midi_write_alsa_seq r.1 r.2 s.sequencer_env).map .seqAct

/-- The C comparison index >= midi_output_count converts the int index
to size_t (64 bit unsigned): value mod 2^64. -/
def size_t_of_int (i : Int) : Nat := (i % (2 ^ 64)).toNat

/-- midi_init from midi_alsa.c with the configured index as argument
(config_get_int is the external configuration collaborator): run
discovery, bail out on its failure, log and bail out when the index is
not below the count under the int-to-size_t conversion, otherwise point
current_output at the indexed device and call its open. -/
def midi_init (h : Host) (cfg_index : Int) (s : MidiState) : MidiState :=
  let r := midi_query h s
  if r.1 = false then r.2
  else if r.2.midi_outputs.length ≤ size_t_of_int cfg_index then r.2
  else
    match r.2.midi_outputs.get? cfg_index.toNat with
    | none => r.2
    | some dev => open_device h dev { r.2 with current_output := some cfg_index.toNat }

/-- midi_close from midi_alsa.c: nothing when no device is current;
otherwise call the close of the current device and clear the slot. -/
def midi_close (s : MidiState) : MidiState × List MidiAction :=
  match s.current_output with
  | none => (s, [])
  | some idx =>
    match s.midi_outputs.get? idx with
    | none => ({ s with current_output := none }, [])
    | some dev =>
      let r := close_device dev s
      ({ r.1 with current_output := none }, r.2)

/-- midi_write from midi_alsa.c: nothing when no device is current;
otherwise forward the byte to the write of the current device. -/
def midi_write (h : Host) (val : Nat) (s : MidiState) : MidiState × List MidiAction :=
  match s.current_output with
  | none => (s, [])
  | some idx =>
    match s.midi_outputs.get? idx with
    | none => (s, [])
    | some dev => (s, write_device h dev val s)

/-- n + 1 successive midi_query calls, threading the state; the result
is the one of the last call. -/
def midi_query_iter (h : Host) : Nat → MidiState → Bool × MidiState
  | 0, s => midi_query h s
  | n + 1, s => midi_query_iter h n (midi_query h s).2

/-! Helper lemmas shared by the claim theorems. -/

/-- midi_query never touches current_output. -/
theorem midi_query_current (h : Host) (s : MidiState) :
    (midi_query h s).2.current_output = s.current_output := by
  unfold midi_query
  by_cases hi : s.initialized <;>
    simp only [hi, if_true, if_false, Bool.false_eq_true, ite_false, ite_true]
  · cases hq : midi_query_alsa_seq h MAX_MIDI_DEVICES <;> simp

/-- A true midi_query result means the cached flag is set afterwards. -/
theorem midi_query_true_initialized (h : Host) (s : MidiState)
    (hok : (midi_query h s).1 = true) : (midi_query h s).2.initialized = true := by
  unfold midi_query at hok ⊢
  by_cases hi : s.initialized
  · simp [hi]
  · simp only [hi, if_false, Bool.false_eq_true, ite_false] at hok ⊢
    cases hq : midi_query_alsa_seq h MAX_MIDI_DEVICES <;> simp [hq] at hok ⊢

/-- On an initialized state midi_query is the cached success. -/
theorem midi_query_of_initialized (h : Host) (s : MidiState)
    (hi : s.initialized = true) : midi_query h s = (true, s) := by
  unfold midi_query
  simp [hi]

/-- Discovery stores at most twice MAX_MIDI_DEVICES entries when run on
an uninitialized state. -/
theorem midi_query_length_le (h : Host) (s : MidiState)
    (hi : s.initialized = false) :
    (midi_query h s).2.midi_outputs.length ≤ 2 * MAX_MIDI_DEVICES := by
  unfold midi_query
  simp only [hi, Bool.false_eq_true, ite_false]
  cases hq : midi_query_alsa_seq h MAX_MIDI_DEVICES with
  | none =>
    simp only []
    unfold midi_query_rawmidi
    by_cases hr : h.raw_first_next_fails <;> simp [hr, MAX_MIDI_DEVICES]
  | some seq_list =>
    simp only []
    have h1 : ((midi_query_rawmidi h MAX_MIDI_DEVICES).getD []).length ≤ MAX_MIDI_DEVICES := by
      unfold midi_query_rawmidi
      by_cases hr : h.raw_first_next_fails <;> simp [hr]
    have h2 : seq_list.length ≤ MAX_MIDI_DEVICES := by
      unfold midi_query_alsa_seq at hq
      by_cases hs2 : h.seq_open_fails <;> simp [hs2] at hq
      subst hq; simp
    simp only [List.length_append]
    omega

/-- Claim C1: on a not-yet-queried state, discovery fails exactly when
the sequencer enumeration hard-fails (a rawmidi enumeration error only
counts as zero devices, so discovery can still succeed); on a sequencer
failure the queried flag stays unset and midi_get_num_devs reports 0,
even when rawmidi devices were already stored in that run. -/
theorem C1_discovery_fails_iff_seq_fails (h : Host) (s : MidiState)
    (hinit : s.initialized = false) :
    ((midi_query h s).1 = false ↔ h.seq_open_fails = true) ∧
    (h.seq_open_fails = true →
      (midi_query h s).2.initialized = false ∧
      (midi_get_num_devs h s).1 = 0 ∧
      (midi_query h s).2.midi_outputs = (midi_query_rawmidi h MAX_MIDI_DEVICES).getD []) ∧
    (h.seq_open_fails = false → (midi_query h s).1 = true) := by
  unfold midi_get_num_devs midi_query midi_query_alsa_seq
  by_cases hs2 : h.seq_open_fails <;> simp [hs2, hinit]

/-- Witness for C1 on a concrete host whose sequencer open fails while
one rawmidi device exists, with the fresh state. -/
theorem C1_witness :
    (MidiState.mk false [] none ⟨none, none, ⟨0, 0⟩, ⟨0, 0⟩⟩ false).initialized = false ∧
    ((midi_query
        (Host.mk false [⟨0, some "Card", true, [⟨0, 0, [true]⟩]⟩] true [] 0 false 0 false
          (fun _ => (0, 0)))
        (MidiState.mk false [] none ⟨none, none, ⟨0, 0⟩, ⟨0, 0⟩⟩ false)).1 = false ↔
      (true : Bool) = true) := by
  refine ⟨rfl, ?_⟩
  have := C1_discovery_fails_iff_seq_fails
    (Host.mk false [⟨0, some "Card", true, [⟨0, 0, [true]⟩]⟩] true [] 0 false 0 false
      (fun _ => (0, 0)))
    (MidiState.mk false [] none ⟨none, none, ⟨0, 0⟩, ⟨0, 0⟩⟩ false) rfl
  exact this.1

/-- Claim C2: with the sequencer open, a byte whose encoding completes a
message (codec result 1) sends exactly one event, direct, from the own
source port, to subscribers, followed by a drain precisely when the
event type is neither program change nor channel pressure; a byte that
completes nothing issues no call. -/
theorem C2_flush_policy (encode_result ev_type : Int) (env : sequencer_env_t)
    (hopen : env.seq.isSome = true) :
    (encode_result = 1 →
      midi_write_alsa_seq encode_result ev_type env =
        [SeqAction.sendEvent true env.src.port true ev_type] ++
          (if ev_type = SND_SEQ_EVENT_PGMCHANGE ∨ ev_type = SND_SEQ_EVENT_CHANPRESS then
            [] else [SeqAction.drainOutput])) ∧
    (encode_result = 1 →
      (SeqAction.drainOutput ∈ midi_write_alsa_seq encode_result ev_type env ↔
        ¬(ev_type = SND_SEQ_EVENT_PGMCHANGE ∨ ev_type = SND_SEQ_EVENT_CHANPRESS))) ∧
    (encode_result ≠ 1 → midi_write_alsa_seq encode_result ev_type env = []) := by
  cases henv : env.seq with
  | none => rw [henv] at hopen; simp at hopen
  | some u =>
    refine ⟨?_, ?_, ?_⟩
    · intro h1
      unfold midi_write_alsa_seq
      by_cases ht : ev_type = SND_SEQ_EVENT_PGMCHANGE ∨ ev_type = SND_SEQ_EVENT_CHANPRESS <;>
        simp [henv, h1, ht]
    · intro h1
      unfold midi_write_alsa_seq
      by_cases ht : ev_type = SND_SEQ_EVENT_PGMCHANGE ∨ ev_type = SND_SEQ_EVENT_CHANPRESS <;>
        simp [henv, h1, ht]
    · intro h1
      unfold midi_write_alsa_seq
      simp [henv, h1]

/-- Witness for C2 at a concrete open environment: a completed note-on
drains, a completed program change does not, a byte completing nothing
sends nothing. -/
theorem C2_witness :
    midi_write_alsa_seq 1 SND_SEQ_EVENT_NOTEON ⟨some (), some (), ⟨0, 5⟩, ⟨0, 0⟩⟩ =
      [SeqAction.sendEvent true 5 true SND_SEQ_EVENT_NOTEON, SeqAction.drainOutput] ∧
    midi_write_alsa_seq 1 SND_SEQ_EVENT_PGMCHANGE ⟨some (), some (), ⟨0, 5⟩, ⟨0, 0⟩⟩ =
      [SeqAction.sendEvent true 5 true SND_SEQ_EVENT_PGMCHANGE] ∧
    midi_write_alsa_seq 0 SND_SEQ_EVENT_NOTEON ⟨some (), some (), ⟨0, 5⟩, ⟨0, 0⟩⟩ = [] := by
  refine ⟨?_, ?_, ?_⟩
  · have := (C2_flush_policy 1 SND_SEQ_EVENT_NOTEON ⟨some (), some (), ⟨0, 5⟩, ⟨0, 0⟩⟩ rfl).1 rfl
    rw [this]; decide
  · have := (C2_flush_policy 1 SND_SEQ_EVENT_PGMCHANGE ⟨some (), some (), ⟨0, 5⟩, ⟨0, 0⟩⟩ rfl).1 rfl
    rw [this]; decide
  · exact (C2_flush_policy 0 SND_SEQ_EVENT_NOTEON ⟨some (), some (), ⟨0, 5⟩, ⟨0, 0⟩⟩ rfl).2.2
      (by decide)

/-- Claim C3: a successful sequencer open uses the stored device
address as destination, except that a stored client 0 (the placeholder
the code treats as meaning subscribers) or an address equal to the
source just created (its never-assigned client together with the newly
created port) is rewritten to the broadcast subscribers address; the
issued calls show a direct connect exactly for a non-broadcast
destination. -/
theorem C3_open_destination (h : Host) (address : snd_seq_addr_t) (env : sequencer_env_t)
    (hclosed : env.seq = none) (hseq : h.seq_open_fails = false)
    (hcodec : h.codec_new_fails = false) :
    let new_port : Int := h.create_port_result % 256
    let dest : snd_seq_addr_t :=
      if address.client = 0 ∨ (address.client = env.src.client ∧ address.port = new_port) then
        { client := SND_SEQ_ADDRESS_SUBSCRIBERS, port := SND_SEQ_ADDRESS_UNKNOWN }
      else address
    (midi_open_alsa_seq h address env).1.seq.isSome = true ∧
    (midi_open_alsa_seq h address env).1.dest = dest ∧
    (midi_open_alsa_seq h address env).2 =
      [SeqAction.allocClient, SeqAction.allocPort new_port] ++
        (if dest.client ≠ SND_SEQ_ADDRESS_SUBSCRIBERS then
          [SeqAction.connectTo dest.client dest.port]
        else []) ++ [SeqAction.allocCodec] := by
  intro new_port dest
  have hnn : ¬ (new_port < 0) := by
    have := Int.emod_nonneg h.create_port_result (by norm_num : (256 : Int) ≠ 0)
    omega
  unfold midi_open_alsa_seq
  simp only [hclosed, Option.isSome_none, Bool.false_eq_true, if_false, hseq, hcodec,
    ite_false, hnn]
  by_cases hc : address.client = 0 ∨
      (address.client = env.src.client ∧ address.port = new_port) <;>
    simp [hc, dest, new_port, SND_SEQ_ADDRESS_SUBSCRIBERS, SND_SEQ_ADDRESS_UNKNOWN]

/-- Witness for C3 at a concrete host and closed environment: address
(20, 3) is kept as destination and a connect to it is attempted. -/
theorem C3_witness :
    (midi_open_alsa_seq (Host.mk false [] false [] 7 false 0 false (fun _ => (0, 0)))
        ⟨20, 3⟩ ⟨none, none, ⟨0, 0⟩, ⟨0, 0⟩⟩).1.dest = ⟨20, 3⟩ ∧
    (midi_open_alsa_seq (Host.mk false [] false [] 7 false 0 false (fun _ => (0, 0)))
        ⟨20, 3⟩ ⟨none, none, ⟨0, 0⟩, ⟨0, 0⟩⟩).2 =
      [SeqAction.allocClient, SeqAction.allocPort 7, SeqAction.connectTo 20 3,
        SeqAction.allocCodec] := by
  have h3 := C3_open_destination (Host.mk false [] false [] 7 false 0 false (fun _ => (0, 0)))
    ⟨20, 3⟩ ⟨none, none, ⟨0, 0⟩, ⟨0, 0⟩⟩ rfl rfl rfl
  simp only [] at h3
  refine ⟨?_, ?_⟩
  · rw [h3.2.1]; decide
  · rw [h3.2.2]; decide

/-- Every device a card contributes is rawmidi-backed. -/
theorem raw_card_entries_kind (c : RawCardInfo) (d : midi_output_t)
    (hd : d ∈ raw_card_entries c) : d.isRawKind = true := by
  cases hsn : c.shortname with
  | none => simp [raw_card_entries, hsn] at hd
  | some nm =>
    simp only [raw_card_entries, hsn] at hd
    by_cases hc : raw_ctl_name_len c.card < MAX_CTL_NAME_LEN ∧ c.ctl_ok = true
    · rw [if_pos hc] at hd
      rcases List.mem_map.mp hd with ⟨a, _, rfl⟩
      rfl
    · rw [if_neg hc] at hd
      simp at hd

/-- Every device midi_query_rawmidi returns is rawmidi-backed. -/
theorem midi_query_rawmidi_kind (h : Host) (maxlen : Nat) (d : midi_output_t)
    (hd : d ∈ (midi_query_rawmidi h maxlen).getD []) : d.isRawKind = true := by
  unfold midi_query_rawmidi at hd
  by_cases hr : h.raw_first_next_fails
  · simp [hr] at hd
  · rw [if_neg hr, Option.getD_some] at hd
    have hd2 := List.mem_of_mem_take hd
    rcases List.mem_flatMap.mp hd2 with ⟨c, _, hdc⟩
    exact raw_card_entries_kind c d hdc

/-- Claim C4: after successful discovery from an uninitialized state,
the merged list is the rawmidi devices (host card/device/sub order)
followed by the sequencer devices (host client/port order): index i
below the rawmidi count holds the i-th rawmidi device, and index
rawCount + j holds the j-th sequencer device. -/
theorem C4_merge_order (h : Host) (s : MidiState)
    (hinit : s.initialized = false) (hseq : h.seq_open_fails = false) :
    let raw_list := (midi_query_rawmidi h MAX_MIDI_DEVICES).getD []
    let seq_list := ((h.seq_ports.filter seq_port_matches).map seq_entry).take MAX_MIDI_DEVICES
    let out := (midi_query h s).2.midi_outputs
    out = raw_list ++ seq_list ∧
    (∀ d ∈ raw_list, d.isRawKind = true) ∧
    (∀ d ∈ seq_list, d.isSeqKind = true) ∧
    (∀ i, i < raw_list.length → out[i]? = raw_list[i]?) ∧
    (∀ j, out[raw_list.length + j]? = seq_list[j]?) := by
  intro raw_list seq_list out
  have hout : out = raw_list ++ seq_list := by
    show (midi_query h s).2.midi_outputs = _
    unfold midi_query midi_query_alsa_seq
    simp [hinit, hseq]
  refine ⟨hout, ?_, ?_, ?_, ?_⟩
  · intro d hd
    exact midi_query_rawmidi_kind h MAX_MIDI_DEVICES d hd
  · intro d hd
    have hd2 := List.mem_of_mem_take hd
    rcases List.mem_map.mp hd2 with ⟨p, _, rfl⟩
    rfl
  · intro i hi
    rw [hout]
    exact List.getElem?_append_left hi
  · intro j
    rw [hout, List.getElem?_append_right (Nat.le_add_right _ _)]
    simp

/-- Witness for C4 at a concrete host with one rawmidi sub-device and
one matching sequencer port, from the fresh state. -/
theorem C4_witness :
    (midi_query
      (Host.mk false [⟨0, some "Card", true, [⟨0, 0, [true]⟩]⟩] false
        [⟨128, 0, 2, 66, "TiMidity"⟩] 0 false 0 false (fun _ => (0, 0)))
      (MidiState.mk false [] none ⟨none, none, ⟨0, 0⟩, ⟨0, 0⟩⟩ false)).2.midi_outputs =
      [{ name := rawmidi_name ⟨0, 0, 0⟩ "Card", kind := .rawmidi ⟨0, 0, 0⟩ },
       { name := seq_device_name 128 0 "TiMidity", kind := .seqdev ⟨128, 0⟩ }] := by
  have h4 := C4_merge_order
    (Host.mk false [⟨0, some "Card", true, [⟨0, 0, [true]⟩]⟩] false
      [⟨128, 0, 2, 66, "TiMidity"⟩] 0 false 0 false (fun _ => (0, 0)))
    (MidiState.mk false [] none ⟨none, none, ⟨0, 0⟩, ⟨0, 0⟩⟩ false) rfl rfl
  simp only [] at h4
  rw [h4.1]
  rfl

/-- After a successful midi_query, a second call is the cached no-op. -/
theorem midi_query_stable (h : Host) (s : MidiState)
    (hok : (midi_query h s).1 = true) :
    midi_query h (midi_query h s).2 = midi_query h s := by
  have hi := midi_query_true_initialized h s hok
  rw [midi_query_of_initialized h _ hi]
  rw [← hok]

/-- Any number of repetitions after a successful midi_query equals the
single call. -/
theorem midi_query_iter_eq (h : Host) (n : Nat) (s : MidiState)
    (hok : (midi_query h s).1 = true) :
    midi_query_iter h n s = midi_query h s := by
  induction n generalizing s with
  | zero => rfl
  | succ n ih =>
    show midi_query_iter h n (midi_query h s).2 = midi_query h s
    have hok2 : (midi_query h (midi_query h s).2).1 = true := by
      rw [midi_query_stable h s hok]; exact hok
    calc midi_query_iter h n (midi_query h s).2
        = midi_query h (midi_query h s).2 := ih (midi_query h s).2 hok2
      _ = midi_query h s := midi_query_stable h s hok

/-- Claim C5: after a first successful discovery, every later call is a
no-op on the cached state, still reports success, and leaves the count
and the name at every index of the single first call, for any number of
repetitions. -/
theorem C5_discovery_idempotent (h : Host) (s : MidiState) (n : Nat)
    (hok : (midi_query h s).1 = true) :
    midi_query_iter h n s = midi_query h s ∧
    midi_query h (midi_query h s).2 = (true, (midi_query h s).2) ∧
    (midi_query_iter h n s).1 = true ∧
    (midi_query_iter h n s).2.midi_outputs.length =
      (midi_query h s).2.midi_outputs.length ∧
    (∀ i : Nat, ((midi_query_iter h n s).2.midi_outputs[i]?).map midi_output_t.name =
      ((midi_query h s).2.midi_outputs[i]?).map midi_output_t.name) := by
  have he := midi_query_iter_eq h n s hok
  refine ⟨he, ?_, by rw [he]; exact hok, by rw [he], fun i => by rw [he]⟩
  rw [midi_query_stable h s hok, ← hok]

/-- Witness for C5: three repetitions on a concrete host equal the
single call. -/
theorem C5_witness :
    midi_query_iter (Host.mk false [] false [] 0 false 0 false (fun _ => (0, 0))) 3
      (MidiState.mk false [] none ⟨none, none, ⟨0, 0⟩, ⟨0, 0⟩⟩ false) =
    midi_query (Host.mk false [] false [] 0 false 0 false (fun _ => (0, 0)))
      (MidiState.mk false [] none ⟨none, none, ⟨0, 0⟩, ⟨0, 0⟩⟩ false) :=
  (C5_discovery_idempotent (Host.mk false [] false [] 0 false 0 false (fun _ => (0, 0)))
    (MidiState.mk false [] none ⟨none, none, ⟨0, 0⟩, ⟨0, 0⟩⟩ false) 3 (by rfl)).1

/-- Opening a device never moves current_output. -/
theorem open_device_current (h : Host) (d : midi_output_t) (s : MidiState) :
    (open_device h d s).current_output = s.current_output := by
  unfold open_device
  cases hk : d.kind <;> simp [hk]

/-- The int-to-size_t conversion is the identity on small nonnegative
values. -/
theorem size_t_of_int_of_nonneg (i : Int) (h0 : 0 ≤ i) (h1 : i < 2 ^ 64) :
    size_t_of_int i = i.toNat := by
  unfold size_t_of_int
  rw [Int.emod_eq_of_lt h0 h1]

/-- Claim C6: when discovery succeeded and the configured index (an int
in range) is at least the discovered count, midi_init only logs: the
state is the post-discovery state, current_output untouched, and the
call returns normally; for an in-range index it points current_output
at that index and runs the open of the device stored there. -/
theorem C6_init_selection (h : Host) (cfg_index : Int) (s : MidiState)
    (hok : (midi_query h s).1 = true)
    (h0 : 0 ≤ cfg_index) (h1 : cfg_index < 2 ^ 31) :
    ((midi_query h s).2.midi_outputs.length ≤ cfg_index.toNat →
      midi_init h cfg_index s = (midi_query h s).2 ∧
      (midi_init h cfg_index s).current_output = s.current_output) ∧
    (cfg_index.toNat < (midi_query h s).2.midi_outputs.length →
      ∃ dev, (midi_query h s).2.midi_outputs.get? cfg_index.toNat = some dev ∧
        midi_init h cfg_index s =
          open_device h dev
            { (midi_query h s).2 with current_output := some cfg_index.toNat } ∧
        (midi_init h cfg_index s).current_output = some cfg_index.toNat) := by
  have hsz : size_t_of_int cfg_index = cfg_index.toNat :=
    size_t_of_int_of_nonneg cfg_index h0 (lt_trans h1 (by norm_num))
  constructor
  · intro hge
    have heq : midi_init h cfg_index s = (midi_query h s).2 := by
      unfold midi_init
      simp only [hok, Bool.true_eq_false, if_false, ite_false, hsz, hge, if_true, ite_true]
    refine ⟨heq, ?_⟩
    rw [heq]
    exact midi_query_current h s
  · intro hlt
    refine ⟨(midi_query h s).2.midi_outputs.get ⟨cfg_index.toNat, hlt⟩, ?_, ?_, ?_⟩
    · rw [List.get?_eq_getElem?]
      simp [hlt, List.getElem?_eq_getElem, List.get_eq_getElem]
    · unfold midi_init
      simp only [hok, Bool.true_eq_false, if_false, ite_false, hsz,
        Nat.not_le.mpr hlt, if_neg, ite_false, List.get?_eq_getElem?,
        List.getElem?_eq_getElem hlt, List.get_eq_getElem]
    · have hc := open_device_current h
        ((midi_query h s).2.midi_outputs.get ⟨cfg_index.toNat, hlt⟩)
        { (midi_query h s).2 with current_output := some cfg_index.toNat }
      unfold midi_init
      simp only [hok, Bool.true_eq_false, if_false, ite_false, hsz, List.get?_eq_getElem?,
        List.getElem?_eq_getElem hlt, List.get_eq_getElem]
      rw [if_neg (Nat.not_le.mpr hlt)]
      simpa using hc

/-- Witness for C6: a concrete host with one sequencer device; index 5
is out of range and leaves the state at the discovery result, index 0
selects the device. -/
theorem C6_witness :
    midi_init (Host.mk false [] false [⟨128, 0, 2, 66, "T"⟩] 7 false 0 false (fun _ => (0, 0)))
      5 (MidiState.mk false [] none ⟨none, none, ⟨0, 0⟩, ⟨0, 0⟩⟩ false) =
      (midi_query (Host.mk false [] false [⟨128, 0, 2, 66, "T"⟩] 7 false 0 false
        (fun _ => (0, 0)))
        (MidiState.mk false [] none ⟨none, none, ⟨0, 0⟩, ⟨0, 0⟩⟩ false)).2 ∧
    (midi_init (Host.mk false [] false [⟨128, 0, 2, 66, "T"⟩] 7 false 0 false (fun _ => (0, 0)))
      0 (MidiState.mk false [] none ⟨none, none, ⟨0, 0⟩, ⟨0, 0⟩⟩ false)).current_output =
      some 0 := by
  constructor
  · exact ((C6_init_selection
      (Host.mk false [] false [⟨128, 0, 2, 66, "T"⟩] 7 false 0 false (fun _ => (0, 0))) 5
      (MidiState.mk false [] none ⟨none, none, ⟨0, 0⟩, ⟨0, 0⟩⟩ false)
      (by rfl) (by norm_num) (by norm_num)).1 (by decide)).1
  · obtain ⟨dev, -, -, hcur⟩ := (C6_init_selection
      (Host.mk false [] false [⟨128, 0, 2, 66, "T"⟩] 7 false 0 false (fun _ => (0, 0))) 0
      (MidiState.mk false [] none ⟨none, none, ⟨0, 0⟩, ⟨0, 0⟩⟩ false)
      (by rfl) (by norm_num) (by norm_num)).2 (by decide)
    exact hcur

/-- Claim C7: the sequencer backend keeps at most one live
client/port/codec triple: open with an existing client handle returns
at once, issuing no call and allocating nothing, and close with no
client handle changes nothing. -/
theorem C7_single_client_invariant (h : Host) (address : snd_seq_addr_t)
    (env_open env_closed : sequencer_env_t)
    (hopen : env_open.seq.isSome = true) (hclosed : env_closed.seq = none) :
    midi_open_alsa_seq h address env_open = (env_open, []) ∧
    midi_close_alsa_seq env_closed = (env_closed, []) := by
  constructor
  · unfold midi_open_alsa_seq
    simp [hopen]
  · unfold midi_close_alsa_seq
    simp [hclosed]

/-- Witness for C7 at concrete environments: an already open
environment is untouched by open, a closed one by close. -/
theorem C7_witness :
    midi_open_alsa_seq (Host.mk false [] false [] 7 false 0 false (fun _ => (0, 0))) ⟨20, 3⟩
      ⟨some (), some (), ⟨0, 5⟩, ⟨20, 3⟩⟩ = (⟨some (), some (), ⟨0, 5⟩, ⟨20, 3⟩⟩, []) ∧
    midi_close_alsa_seq ⟨none, none, ⟨0, 0⟩, ⟨0, 0⟩⟩ =
      (⟨none, none, ⟨0, 0⟩, ⟨0, 0⟩⟩, []) :=
  C7_single_client_invariant (Host.mk false [] false [] 7 false 0 false (fun _ => (0, 0)))
    ⟨20, 3⟩ ⟨some (), some (), ⟨0, 5⟩, ⟨20, 3⟩⟩ ⟨none, none, ⟨0, 0⟩, ⟨0, 0⟩⟩ rfl rfl

/-- Claim C8: midi_write with no current device is a total no-op for
every byte: the state is returned unchanged and no call is issued; and
midi_close always leaves no current device, so writes after close hit
this no-op. -/
theorem C8_write_noop (h : Host) (val : Nat) (s t : MidiState)
    (hnone : s.current_output = none) (_hval : val ≤ 255) :
    midi_write h val s = (s, []) ∧
    (midi_close t).1.current_output = none := by
  constructor
  · unfold midi_write
    simp [hnone]
  · unfold midi_close
    cases ht : t.current_output with
    | none => simp [ht]
    | some idx =>
      cases hg : t.midi_outputs[idx]? <;> simp [ht, hg]

/-- Witness for C8 at byte 144 on a state with devices stored but none
current. -/
theorem C8_witness :
    midi_write (Host.mk false [] false [] 0 false 0 false (fun _ => (0, 0))) 144
      (MidiState.mk true [{ name := "d", kind := .seqdev ⟨1, 0⟩ }] none
        ⟨none, none, ⟨0, 0⟩, ⟨0, 0⟩⟩ false) =
      ((MidiState.mk true [{ name := "d", kind := .seqdev ⟨1, 0⟩ }] none
        ⟨none, none, ⟨0, 0⟩, ⟨0, 0⟩⟩ false), []) :=
  (C8_write_noop (Host.mk false [] false [] 0 false 0 false (fun _ => (0, 0))) 144
    (MidiState.mk true [{ name := "d", kind := .seqdev ⟨1, 0⟩ }] none
      ⟨none, none, ⟨0, 0⟩, ⟨0, 0⟩⟩ false)
    (MidiState.mk true [] none ⟨none, none, ⟨0, 0⟩, ⟨0, 0⟩⟩ false)
    rfl (by norm_num)).1

/-- Claim C9: each backend query yields at most MAX_MIDI_DEVICES
entries, discovery stores at most the array capacity of twice
MAX_MIDI_DEVICES devices, and every index written during discovery is
below that capacity. -/
theorem C9_capacity (h : Host) (s : MidiState) :
    ((midi_query_rawmidi h MAX_MIDI_DEVICES).getD []).length ≤ MAX_MIDI_DEVICES ∧
    (∀ l, midi_query_alsa_seq h MAX_MIDI_DEVICES = some l →
      l.length ≤ MAX_MIDI_DEVICES) ∧
    (s.initialized = false →
      (midi_query h s).2.midi_outputs.length ≤ 2 * MAX_MIDI_DEVICES) ∧
    (s.initialized = false →
      ∀ i, i < (midi_query h s).2.midi_outputs.length → i < 2 * MAX_MIDI_DEVICES) := by
  refine ⟨?_, ?_, fun hi => midi_query_length_le h s hi, fun hi i hlt => ?_⟩
  · unfold midi_query_rawmidi
    by_cases hr : h.raw_first_next_fails <;> simp [hr]
  · intro l hl
    unfold midi_query_alsa_seq at hl
    by_cases hs2 : h.seq_open_fails <;> simp [hs2] at hl
    subst hl
    simp
  · have := midi_query_length_le h s hi
    omega

/-- Witness for C9 at a concrete host and the fresh state. -/
theorem C9_witness :
    ((midi_query_rawmidi (Host.mk false [] false [] 0 false 0 false (fun _ => (0, 0)))
      MAX_MIDI_DEVICES).getD []).length ≤ MAX_MIDI_DEVICES ∧
    ([] : List midi_output_t).length ≤ MAX_MIDI_DEVICES ∧
    (midi_query (Host.mk false [] false [] 0 false 0 false (fun _ => (0, 0)))
      (MidiState.mk false [] none ⟨none, none, ⟨0, 0⟩, ⟨0, 0⟩⟩ false)).2.midi_outputs.length ≤
      2 * MAX_MIDI_DEVICES :=
  ⟨(C9_capacity (Host.mk false [] false [] 0 false 0 false (fun _ => (0, 0)))
      (MidiState.mk false [] none ⟨none, none, ⟨0, 0⟩, ⟨0, 0⟩⟩ false)).1,
   (C9_capacity (Host.mk false [] false [] 0 false 0 false (fun _ => (0, 0)))
      (MidiState.mk false [] none ⟨none, none, ⟨0, 0⟩, ⟨0, 0⟩⟩ false)).2.1 [] (by rfl),
   (C9_capacity (Host.mk false [] false [] 0 false 0 false (fun _ => (0, 0)))
      (MidiState.mk false [] none ⟨none, none, ⟨0, 0⟩, ⟨0, 0⟩⟩ false)).2.2.1 rfl⟩

/-- Claim C10: a negative configured index (in int range, on a state
respecting the array capacity) always satisfies the missing-device
check through the int-to-size_t conversion, so midi_init stops after
discovery, never indexes the device array, and leaves current_output
unchanged. -/
theorem C10_negative_index (h : Host) (cfg_index : Int) (s : MidiState)
    (hneg : cfg_index < 0) (hrange : -(2 ^ 31) ≤ cfg_index)
    (hcap : s.midi_outputs.length ≤ 2 * MAX_MIDI_DEVICES) :
    midi_init h cfg_index s = (midi_query h s).2 ∧
    (midi_init h cfg_index s).current_output = s.current_output := by
  have hsz : 257 ≤ size_t_of_int cfg_index := by
    unfold size_t_of_int
    have hpow : (2 : Int) ^ 64 = 18446744073709551616 := by norm_num
    have hr2 : -(2 : Int) ^ 31 = -2147483648 := by norm_num
    rw [hpow]
    rw [hr2] at hrange
    omega
  have hlen : (midi_query h s).2.midi_outputs.length ≤ 2 * MAX_MIDI_DEVICES := by
    by_cases hi : s.initialized
    · rw [midi_query_of_initialized h s hi]
      exact hcap
    · exact midi_query_length_le h s (by simpa using hi)
  have hguard : (midi_query h s).2.midi_outputs.length ≤ size_t_of_int cfg_index := by
    have h256 : 2 * MAX_MIDI_DEVICES = 256 := by norm_num [MAX_MIDI_DEVICES]
    omega
  have heq : midi_init h cfg_index s = (midi_query h s).2 := by
    unfold midi_init
    by_cases hq1 : (midi_query h s).1 = false
    · simp [hq1]
    · simp only [hq1, if_false, ite_false]
      rw [if_pos hguard]
      simp
  refine ⟨heq, ?_⟩
  rw [heq]
  exact midi_query_current h s

/-- Witness for C10: configured index -1 on a concrete host and the
fresh state. -/
theorem C10_witness :
    midi_init (Host.mk false [] false [] 0 false 0 false (fun _ => (0, 0))) (-1)
      (MidiState.mk false [] none ⟨none, none, ⟨0, 0⟩, ⟨0, 0⟩⟩ false) =
      (midi_query (Host.mk false [] false [] 0 false 0 false (fun _ => (0, 0)))
        (MidiState.mk false [] none ⟨none, none, ⟨0, 0⟩, ⟨0, 0⟩⟩ false)).2 ∧
    (midi_init (Host.mk false [] false [] 0 false 0 false (fun _ => (0, 0))) (-1)
      (MidiState.mk false [] none ⟨none, none, ⟨0, 0⟩, ⟨0, 0⟩⟩ false)).current_output =
      none :=
  C10_negative_index (Host.mk false [] false [] 0 false 0 false (fun _ => (0, 0))) (-1)
    (MidiState.mk false [] none ⟨none, none, ⟨0, 0⟩, ⟨0, 0⟩⟩ false)
    (by norm_num) (by norm_num) (by norm_num)

end MidiAlsa
